import Mathlib

/-!
Shallow embedding of the entitlement and delivery engine of src/bot.py, a
Telegram bot distributing exam probe files. Database tables become
association lists, the asyncpg handlers become pure functions on a database
state, timestamps become integers (seconds), and the nondeterminism of
ORDER BY RANDOM() becomes an explicit pick parameter. Two behaviors of the
source deserve note and are reflected faithfully below:

1. The cooldown upsert statements of both delivery handlers (src/bot.py
   lines 471-476 and 617-622) reference a column of the target table
   (next_special_time, resp. next_free_time) inside their INSERT ... VALUES
   list. PostgreSQL rejects such a column reference with an
   undefined-column error, asyncpg raises at statement preparation, and the
   blanket except clause of each handler swallows the error after the
   document was already sent (and, in the special handler, after the quota
   UPDATE already ran; there is no surrounding transaction, each statement
   autocommits). Those statements therefore never modify the database.

2. admin_grant_access (lines 696-704) stores the entitlement row under the
   subject code (subject_map_reverse, e.g. "math") while
   handle_special_variant (lines 555-559) looks the row up under the full
   subject name (subject_map, e.g. the Russian display name), so a granted
   row is never found by the delivery path.
-/

namespace TGBot

/-- A row of the users table (src/bot.py lines 69-77). -/
structure UserRow where
  user_id : Int
  username : Option String
  first_name : Option String
  last_name : Option String
deriving Repr, DecidableEq

/-- A row of the user_cooldowns table (lines 81-89), keyed by
(user_id, subject_name); none models SQL NULL. -/
structure CooldownRec where
  next_free_time : Option Int
  next_special_time : Option Int
deriving Repr, DecidableEq

/-- A row of the user_access table (lines 94-103), keyed by
(user_id, subject_name, access_type). -/
structure AccessRec where
  remaining_count : Int
  last_special_test_id : Int
deriving Repr, DecidableEq

/-- A row of the tests table (lines 106-113): free probes. -/
structure FreeTest where
  id : Int
  subject : String
  file_name : String
  file_url : String
deriving Repr, DecidableEq

/-- A row of the premium_tests table (lines 116-124): special probes. -/
structure PremTest where
  id : Int
  subject : String
  access_type : String
  file_name : String
  file_url : String
deriving Repr, DecidableEq

/-- The persistent database state. -/
structure DB where
  users : List UserRow
  user_cooldowns : List ((Int × String) × CooldownRec)
  user_access : List ((Int × String × String) × AccessRec)
  tests : List FreeTest
  premium_tests : List PremTest
deriving Repr, DecidableEq

/-- ADMIN_IDS (line 59): the privileged user ids. -/
def ADMIN_IDS : List Int := [1044841557, 1727718224]

/-- Seconds in 24 hours: the cooldown interval of the handlers (lines 470
and 616) and the SQL INTERVAL of one day used at registration (line 238). -/
def daySec : Int := 24 * 60 * 60

/-- The subject_map dictionary of the delivery handlers (lines 374-378 and
488-492): subject code to full subject name, defaulting to the unknown
marker. -/
def subject_map (code : String) : String :=
  if code = "math" then "Математика"
  else if code = "informatics" then "Информатика"
  else "Белгісіз"

/-- The subject_map_reverse dictionary of admin_grant_access (lines
679-687): full subject name to subject code; none when the command rejects
the subject. -/
def subject_map_reverse (subject : String) : Option String :=
  if subject = "Математика" then some "math"
  else if subject = "Информатика" then some "informatics"
  else none

/-- The subjects registered on /start (line 227). -/
def start_subjects : List String := ["Математика", "Информатика"]

/-- SELECT by primary key from user_cooldowns (fetchrow, lines 416-419 and
535-538). -/
def lookupCooldown : List ((Int × String) × CooldownRec) → Int × String → Option CooldownRec
  | [], _ => none
  | (k, v) :: rest, key => if k = key then some v else lookupCooldown rest key

/-- SELECT by primary key from user_access (fetchrow, lines 555-559). -/
def lookupAccess : List ((Int × String × String) × AccessRec) → Int × String × String →
    Option AccessRec
  | [], _ => none
  | (k, v) :: rest, key => if k = key then some v else lookupAccess rest key

/-- UPDATE applied to every row matching a key. -/
def updateAccess : List ((Int × String × String) × AccessRec) → Int × String × String →
    (AccessRec → AccessRec) → List ((Int × String × String) × AccessRec)
  | [], _, _ => []
  | (k, v) :: rest, key, f => (k, if k = key then f v else v) :: updateAccess rest key f

/-- The commit step of a special delivery (lines 608-613): one UPDATE whose
WHERE clause matches only the key; it decrements remaining_count and sets
last_special_test_id unconditionally, with no re-check of
remaining_count > 0 or of item_id > last_special_test_id, and outside any
transaction. -/
def commit_update (l : List ((Int × String × String) × AccessRec))
    (key : Int × String × String) (item_id : Int) :
    List ((Int × String × String) × AccessRec) :=
  updateAccess l key (fun r => ⟨r.remaining_count - 1, item_id⟩)

/-- ORDER BY RANDOM() LIMIT 1: some row of the result set, selected by the
random seed pick; none when the set is empty. -/
def randomPick {α : Type} (l : List α) (pick : Nat) : Option α :=
  l.get? (pick % l.length)

/-- The row with the smallest id among a list of premium rows. -/
def minById : List PremTest → Option PremTest
  | [] => none
  | t :: ts =>
    match minById ts with
    | none => some t
    | some u => if t.id ≤ u.id then some t else some u

/-- SELECT FROM premium_tests WHERE subject = s AND access_type = a AND
id > cursor ORDER BY id ASC LIMIT 1 (lines 576-582). -/
def nextPremiumTest (prem : List PremTest) (s a : String) (cursor : Int) : Option PremTest :=
  minById (prem.filter fun t =>
    decide (t.subject = s) && decide (t.access_type = a) && decide (cursor < t.id))

/-- Outcome of handle_special_variant as seen by the requesting user. -/
inductive SpecialResult where
  | adminDelivered (test_id : Int)
  | adminEmpty
  | cooldownActive (remaining : Int)
  | quotaExhausted
  | catalogExhausted
  | delivered (test_id : Int)
  | sendFailed
deriving Repr, DecidableEq

/-- Outcome of handle_free_variant as seen by the requesting user. -/
inductive FreeResult where
  | adminDelivered (test_id : Int)
  | adminEmpty
  | cooldownActive (remaining : Int)
  | noTests
  | delivered (test_id : Int)
  | sendFailed
deriving Repr, DecidableEq

/-- The non-admin body of handle_special_variant past the cooldown gate
(lines 554-622): quota gate, selection, send, then the single quota UPDATE
(commit_update). The trailing cooldown upsert (lines 617-622) references
the target-table column next_free_time inside its VALUES list, which
PostgreSQL rejects with an undefined-column error; asyncpg raises, the
blanket except of the handler swallows the error, and since each statement
autocommits (no transaction is opened), the already-executed quota UPDATE
stays while the cooldown row is left unchanged. -/
def specialAfterCooldown (db : DB) (user_id : Int) (subject_name access_type : String)
    (sendOk : Bool) : SpecialResult × DB :=
  match lookupAccess db.user_access (user_id, subject_name, access_type) with
  | none => (.quotaExhausted, db)
  | some a =>
    if a.remaining_count ≤ 0 then (.quotaExhausted, db)
    else
      match nextPremiumTest db.premium_tests subject_name access_type a.last_special_test_id with
      | none => (.catalogExhausted, db)
      | some t =>
        if sendOk then
          (.delivered t.id,
            { db with user_access :=
                commit_update db.user_access (user_id, subject_name, access_type) t.id })
        else (.sendFailed, db)

/-- handle_special_variant (lines 486-629), state and outcome: the admin
branch picks a random premium row and mutates nothing; otherwise the
cooldown gate on next_special_time runs first, then specialAfterCooldown.
The pick argument resolves ORDER BY RANDOM(); sendOk tells whether
bot.send_document succeeds (when it raises, control jumps to the except
clauses, which perform no database writes). -/
def handle_special_variant (db : DB) (user_id : Int) (subject_code access_type : String)
    (now : Int) (pick : Nat) (sendOk : Bool) : SpecialResult × DB :=
  if ADMIN_IDS.contains user_id then
    match randomPick (db.premium_tests.filter fun t =>
        decide (t.subject = subject_map subject_code) && decide (t.access_type = access_type)) pick with
    | none => (.adminEmpty, db)
    | some t => if sendOk then (.adminDelivered t.id, db) else (.sendFailed, db)
  else
    match (lookupCooldown db.user_cooldowns (user_id, subject_map subject_code)).bind
        CooldownRec.next_special_time with
    | some t0 =>
      if now < t0 then (.cooldownActive (t0 - now), db)
      else specialAfterCooldown db user_id (subject_map subject_code) access_type sendOk
    | none => specialAfterCooldown db user_id (subject_map subject_code) access_type sendOk

/-- The non-admin body of handle_free_variant past the cooldown gate (lines
435-476): a random pick from the tests of the subject, then the send. On
success the cooldown upsert (lines 471-476) would run, but its VALUES list
references the target-table column next_special_time, which PostgreSQL
rejects; the raised error is swallowed by the blanket except, so no row of
the database changes on any path of this body. -/
def freeAfterCooldown (db : DB) (subject_name : String) (pick : Nat) (sendOk : Bool) :
    FreeResult × DB :=
  match randomPick (db.tests.filter fun t => decide (t.subject = subject_name)) pick with
  | none => (.noTests, db)
  | some t => if sendOk then (.delivered t.id, db) else (.sendFailed, db)

/-- handle_free_variant (lines 372-483), state and outcome: the admin branch
picks a random free row and mutates nothing; otherwise the cooldown gate on
next_free_time runs first, then freeAfterCooldown. There is no quota gate:
the free path never touches the user_access table. -/
def handle_free_variant (db : DB) (user_id : Int) (subject_code : String)
    (now : Int) (pick : Nat) (sendOk : Bool) : FreeResult × DB :=
  if ADMIN_IDS.contains user_id then
    match randomPick (db.tests.filter fun t => decide (t.subject = subject_map subject_code)) pick with
    | none => (.adminEmpty, db)
    | some t => if sendOk then (.adminDelivered t.id, db) else (.sendFailed, db)
  else
    match (lookupCooldown db.user_cooldowns (user_id, subject_map subject_code)).bind
        CooldownRec.next_free_time with
    | some t0 =>
      if now < t0 then (.cooldownActive (t0 - now), db)
      else freeAfterCooldown db (subject_map subject_code) pick sendOk
    | none => freeAfterCooldown db (subject_map subject_code) pick sendOk

/-- Whether a users row with the given id exists. -/
def userExists : List UserRow → Int → Bool
  | [], _ => false
  | r :: rest, uid => if r.user_id = uid then true else userExists rest uid

/-- The per-subject registration step of /start (lines 230-239): insert a
cooldown row (NOW() - 1 day, NOW() - 1 day) only when no row exists for the
key. -/
def ensureCooldownRow (cds : List ((Int × String) × CooldownRec)) (user_id : Int)
    (subj : String) (now : Int) : List ((Int × String) × CooldownRec) :=
  match lookupCooldown cds (user_id, subj) with
  | some _ => cds
  | none => ((user_id, subj), ⟨some (now - daySec), some (now - daySec)⟩) :: cds

/-- The state part of the /start handler send_welcome (lines 206-239):
INSERT the users row ON CONFLICT DO NOTHING, then for every configured
subject insert a cooldown row one day in the past when absent. No
user_access row is created. -/
def send_welcome (db : DB) (row : UserRow) (now : Int) : DB :=
  { db with
    users := if userExists db.users row.user_id then db.users else row :: db.users,
    user_cooldowns :=
      start_subjects.foldl (fun acc subj => ensureCooldownRow acc row.user_id subj now)
        db.user_cooldowns }

/-- INSERT ... ON CONFLICT DO UPDATE SET remaining_count =
user_access.remaining_count + EXCLUDED.remaining_count (lines 696-704):
create the row with cursor 0 when absent, else add the amount to the
existing remaining_count leaving last_special_test_id alone. -/
def upsertAccessAdd (l : List ((Int × String × String) × AccessRec))
    (key : Int × String × String) (amount : Int) :
    List ((Int × String × String) × AccessRec) :=
  match lookupAccess l key with
  | some _ => updateAccess l key (fun r => ⟨r.remaining_count + amount, r.last_special_test_id⟩)
  | none => (key, ⟨amount, 0⟩) :: l

/-- Outcome of the /grant_access command. -/
inductive GrantResult where
  | notAdmin
  | unknownSubject
  | granted
deriving Repr, DecidableEq

/-- The state part of admin_grant_access (lines 661-716): admin gate,
subject validation via subject_map_reverse, then the upsert adding
additional_special_tests = 10 (line 690) under the key
(target, subject code, special access type). -/
def admin_grant_access (db : DB) (sender target : Int) (subject : String) :
    GrantResult × DB :=
  if ADMIN_IDS.contains sender then
    match subject_map_reverse subject with
    | none => (.unknownSubject, db)
    | some code =>
      (.granted,
        { db with user_access := upsertAccessAdd db.user_access (target, code, "special") 10 })
  else (.notAdmin, db)

/-- One special-tier request of a sequence: the input is (now, pick, sendOk). -/
def specialStep (u : Int) (code : String) (db : DB) (inp : Int × Nat × Bool) :
    SpecialResult × DB :=
  handle_special_variant db u code "special" inp.1 inp.2.1 inp.2.2

/-- Run a sequence of special-tier requests one after another. -/
def runSpecial (u : Int) (code : String) : DB → List (Int × Nat × Bool) → DB
  | db, [] => db
  | db, inp :: rest => runSpecial u code (specialStep u code db inp).2 rest

/-- True exactly on the non-privileged success outcome. -/
def isDelivered : SpecialResult → Bool
  | .delivered _ => true
  | _ => false

/-- Every request of the sequence is a successful non-privileged delivery. -/
def allDelivered (u : Int) (code : String) : DB → List (Int × Nat × Bool) → Bool
  | _, [] => true
  | db, inp :: rest =>
    isDelivered (specialStep u code db inp).1 &&
      allDelivered u code (specialStep u code db inp).2 rest

/-- The item ids delivered along a sequence of special-tier requests. -/
def deliveredIds (u : Int) (code : String) : DB → List (Int × Nat × Bool) → List Int
  | _, [] => []
  | db, inp :: rest =>
    (match (specialStep u code db inp).1 with
      | .delivered tid => [tid]
      | _ => []) ++ deliveredIds u code (specialStep u code db inp).2 rest

/-- A concrete database for witnesses: registered user 5 with cooldown
deadlines one day in the past, a special entitlement of quota 3 and cursor
0 for the math subject, one free probe and three special probes. -/
def dbW : DB :=
  { users := [⟨5, none, none, none⟩],
    user_cooldowns := [((5, "Математика"), ⟨some (-86400), some (-86400)⟩)],
    user_access := [((5, "Математика", "special"), ⟨3, 0⟩)],
    tests := [⟨1, "Математика", "f1", "u1"⟩],
    premium_tests := [⟨1, "Математика", "special", "p1", "v1"⟩,
                      ⟨2, "Математика", "special", "p2", "v2"⟩,
                      ⟨3, "Математика", "special", "p3", "v3"⟩] }

/-- A concrete database with no cooldown and no entitlement rows, user 42
registered and one special math probe in the catalog. -/
def dbC4 : DB :=
  { users := [⟨42, none, none, none⟩],
    user_cooldowns := [],
    user_access := [],
    tests := [],
    premium_tests := [⟨1, "Математика", "special", "p1", "v1"⟩] }

/-- A concrete database where user 5 holds one remaining special delivery
and the catalog has one undelivered probe. -/
def dbC5 : DB :=
  { users := [⟨5, none, none, none⟩],
    user_cooldowns := [((5, "Математика"), ⟨some (-86400), some (-86400)⟩)],
    user_access := [((5, "Математика", "special"), ⟨1, 0⟩)],
    tests := [],
    premium_tests := [⟨1, "Математика", "special", "p1", "v1"⟩] }

/-- A concrete database where user 7 still has quota 2 but the cursor (3)
already equals the highest special item id of the partition. -/
def dbC6 : DB :=
  { users := [⟨7, none, none, none⟩],
    user_cooldowns := [((7, "Математика"), ⟨some (-1), some (-1)⟩)],
    user_access := [((7, "Математика", "special"), ⟨2, 3⟩)],
    tests := [],
    premium_tests := [⟨3, "Математика", "special", "p3", "v3"⟩] }

/-- The empty database: no users, no rows, no catalog. -/
def dbEmpty : DB :=
  { users := [], user_cooldowns := [], user_access := [], tests := [], premium_tests := [] }

/-! Helper lemmas about the table primitives. -/

lemma lookupAccess_updateAccess_self (l : List ((Int × String × String) × AccessRec))
    (key : Int × String × String) (f : AccessRec → AccessRec) :
    lookupAccess (updateAccess l key f) key = (lookupAccess l key).map f := by
  induction l with
  | nil => rfl
  | cons p rest ih =>
    obtain ⟨k, v⟩ := p
    by_cases h : k = key <;> simp [updateAccess, lookupAccess, h, ih]

lemma lookupAccess_updateAccess_ne (l : List ((Int × String × String) × AccessRec))
    (key key' : Int × String × String) (f : AccessRec → AccessRec) (hne : key' ≠ key) :
    lookupAccess (updateAccess l key f) key' = lookupAccess l key' := by
  induction l with
  | nil => rfl
  | cons p rest ih =>
    obtain ⟨k, v⟩ := p
    by_cases h' : k = key'
    · have hkk : ¬ k = key := fun hc => hne (h' ▸ hc)
      simp only [updateAccess, lookupAccess, if_pos h', if_neg hkk]
    · simp only [updateAccess, lookupAccess, if_neg h', ih]

lemma minById_eq_none {l : List PremTest} (h : minById l = none) : l = [] := by
  cases l with
  | nil => rfl
  | cons a rest =>
    rw [minById] at h
    cases hm : minById rest with
    | none =>
      rw [hm] at h
      exact absurd (show some a = none from h) (by simp)
    | some u =>
      rw [hm] at h
      have h' : (if a.id ≤ u.id then some a else some u) = none := h
      split at h' <;> simp at h'

lemma minById_mem : ∀ {l : List PremTest} {t : PremTest}, minById l = some t → t ∈ l := by
  intro l
  induction l with
  | nil => intro t h; exact absurd h (by simp [minById])
  | cons a rest ih =>
    intro t h
    rw [minById] at h
    cases hm : minById rest with
    | none =>
      rw [hm] at h
      have h' : some a = some t := h
      injection h' with h'
      subst h'
      exact List.mem_cons_self _ _
    | some u =>
      rw [hm] at h
      have h' : (if a.id ≤ u.id then some a else some u) = some t := h
      by_cases hle : a.id ≤ u.id
      · rw [if_pos hle] at h'
        injection h' with h'
        subst h'
        exact List.mem_cons_self _ _
      · rw [if_neg hle] at h'
        injection h' with h'
        subst h'
        exact List.mem_cons_of_mem a (ih hm)

lemma minById_min : ∀ {l : List PremTest} {t : PremTest}, minById l = some t →
    ∀ u ∈ l, t.id ≤ u.id := by
  intro l
  induction l with
  | nil => intro t h; exact absurd h (by simp [minById])
  | cons a rest ih =>
    intro t h u hu
    rw [minById] at h
    cases hm : minById rest with
    | none =>
      rw [hm] at h
      have h' : some a = some t := h
      injection h' with h'
      have hrest := minById_eq_none hm
      subst hrest
      subst h'
      rcases List.mem_cons.mp hu with rfl | hmem
      · exact le_refl _
      · exact absurd hmem (by simp)
    | some v =>
      rw [hm] at h
      have h' : (if a.id ≤ v.id then some a else some v) = some t := h
      by_cases hle : a.id ≤ v.id
      · rw [if_pos hle] at h'
        injection h' with h'
        subst h'
        rcases List.mem_cons.mp hu with rfl | hmem
        · exact le_refl _
        · exact le_trans hle (ih hm u hmem)
      · rw [if_neg hle] at h'
        injection h' with h'
        subst h'
        rcases List.mem_cons.mp hu with rfl | hmem
        · omega
        · exact ih hm u hmem

/-- Characterization of a successful next-item selection: the selected row
matches subject, access type and the strict cursor bound, and has the
smallest id among all matching rows. -/
lemma nextPremiumTest_some {prem : List PremTest} {s a : String} {cursor : Int} {t : PremTest}
    (h : nextPremiumTest prem s a cursor = some t) :
    t ∈ prem ∧ t.subject = s ∧ t.access_type = a ∧ cursor < t.id ∧
      ∀ u ∈ prem, u.subject = s → u.access_type = a → cursor < u.id → t.id ≤ u.id := by
  unfold nextPremiumTest at h
  have hmem := minById_mem h
  have hmin := minById_min h
  rw [List.mem_filter] at hmem
  obtain ⟨hmem, hprop⟩ := hmem
  simp only [Bool.and_eq_true, decide_eq_true_eq] at hprop
  refine ⟨hmem, hprop.1.1, hprop.1.2, hprop.2, ?_⟩
  intro u hu hus hua hcu
  exact hmin u (by
    rw [List.mem_filter]
    refine ⟨hu, ?_⟩
    simp only [Bool.and_eq_true, decide_eq_true_eq]
    exact ⟨⟨hus, hua⟩, hcu⟩)

/-- Characterization of an empty next-item selection: no row of the
partition lies strictly above the cursor. -/
lemma nextPremiumTest_none {prem : List PremTest} {s a : String} {cursor : Int}
    (h : nextPremiumTest prem s a cursor = none) :
    ∀ u ∈ prem, u.subject = s → u.access_type = a → u.id ≤ cursor := by
  unfold nextPremiumTest at h
  have hnil := minById_eq_none h
  intro u hu hus hua
  by_contra hgt
  push_neg at hgt
  have : u ∈ prem.filter fun t =>
      decide (t.subject = s) && decide (t.access_type = a) && decide (cursor < t.id) := by
    rw [List.mem_filter]
    refine ⟨hu, ?_⟩
    simp only [Bool.and_eq_true, decide_eq_true_eq]
    exact ⟨⟨hus, hua⟩, hgt⟩
  rw [hnil] at this
  simp at this

/-- Selection is empty once the cursor dominates every id of the partition. -/
lemma nextPremiumTest_eq_none_of_max {prem : List PremTest} {s a : String} {cursor : Int}
    (h : ∀ u ∈ prem, u.subject = s → u.access_type = a → u.id ≤ cursor) :
    nextPremiumTest prem s a cursor = none := by
  unfold nextPremiumTest
  have : prem.filter (fun t =>
      decide (t.subject = s) && decide (t.access_type = a) && decide (cursor < t.id)) = [] := by
    rw [List.filter_eq_nil_iff]
    intro u hu
    simp only [Bool.and_eq_true, decide_eq_true_eq, not_and]
    intro ⟨hus, hua⟩
    exact not_lt.mpr (h u hu hus hua)
  rw [this]
  rfl

/-! Helper lemmas about the delivery handlers. -/

/-- A successful non-privileged special delivery came from a present access
row with positive quota, selected the minimal item above the cursor, and its
only state change is the single commit UPDATE on that row. -/
lemma specialAfterCooldown_delivered {db : DB} {u : Int} {s a : String} {sendOk : Bool}
    {tid : Int} {db' : DB}
    (h : specialAfterCooldown db u s a sendOk = (.delivered tid, db')) :
    ∃ rec t, lookupAccess db.user_access (u, s, a) = some rec ∧
      0 < rec.remaining_count ∧
      nextPremiumTest db.premium_tests s a rec.last_special_test_id = some t ∧
      tid = t.id ∧ sendOk = true ∧
      db' = { db with user_access := commit_update db.user_access (u, s, a) t.id } := by
  unfold specialAfterCooldown at h
  split at h
  · simp at h
  · rename_i rec hacc
    split at h
    · simp at h
    · rename_i hq
      split at h
      · simp at h
      · rename_i t hsel
        split at h
        · rename_i hsend
          rw [Prod.mk.injEq] at h
          obtain ⟨h1, h2⟩ := h
          injection h1 with h1
          exact ⟨rec, t, hacc, by omega, hsel, h1.symm, hsend, h2.symm⟩
        · simp at h

/-- A successful non-privileged special delivery of the full handler factors
through specialAfterCooldown: the admin and cooldown branches cannot produce
the delivered outcome. -/
lemma handle_special_delivered {db : DB} {u : Int} {code a : String} {now : Int}
    {pick : Nat} {sendOk : Bool} {tid : Int} {db' : DB}
    (h : handle_special_variant db u code a now pick sendOk = (.delivered tid, db')) :
    specialAfterCooldown db u (subject_map code) a sendOk = (.delivered tid, db') := by
  unfold handle_special_variant at h
  split at h
  · split at h
    · simp at h
    · split at h <;> simp at h
  · split at h
    · split at h
      · simp at h
      · exact h
    · exact h

/-- The special handler never mutates the state when the send fails. -/
lemma handle_special_snd_sendFalse (db : DB) (u : Int) (code a : String) (now : Int)
    (pick : Nat) : (handle_special_variant db u code a now pick false).2 = db := by
  unfold handle_special_variant specialAfterCooldown
  repeat' split
  all_goals first | rfl | simp_all

/-- The free handler never mutates the state on any path: the only write it
could reach, the cooldown upsert, is the statement PostgreSQL rejects. -/
lemma handle_free_snd (db : DB) (u : Int) (code : String) (now : Int) (pick : Nat)
    (sendOk : Bool) : (handle_free_variant db u code now pick sendOk).2 = db := by
  unfold handle_free_variant freeAfterCooldown
  repeat' split
  all_goals rfl

/-- The outcome of the free handler does not depend on the user_access
table: the free path never reads the quota. -/
lemma handle_free_fst_access_independent (db : DB)
    (acc : List ((Int × String × String) × AccessRec)) (u : Int) (code : String)
    (now : Int) (pick : Nat) (sendOk : Bool) :
    (handle_free_variant { db with user_access := acc } u code now pick sendOk).1 =
      (handle_free_variant db u code now pick sendOk).1 := by
  unfold handle_free_variant freeAfterCooldown
  dsimp only
  repeat' split
  all_goals simp_all

/-- One successful step of a special-tier sequence: the quota of the access
row decreases by exactly one and the cursor jumps to the delivered id, which
lies strictly above the old cursor; the premium catalog and the cooldown
rows are untouched. -/
lemma specialStep_delivered {u : Int} {code : String} {db : DB} {inp : Int × Nat × Bool}
    {tid : Int} {db' : DB} {Q c0 : Int}
    (hinit : lookupAccess db.user_access (u, subject_map code, "special") = some ⟨Q, c0⟩)
    (hstep : specialStep u code db inp = (.delivered tid, db')) :
    0 < Q ∧ c0 < tid ∧
      lookupAccess db'.user_access (u, subject_map code, "special") = some ⟨Q - 1, tid⟩ ∧
      db'.premium_tests = db.premium_tests ∧ db'.user_cooldowns = db.user_cooldowns := by
  unfold specialStep at hstep
  obtain ⟨rec, t, hacc, hpos, hsel, htid, hsend, hdb'⟩ :=
    specialAfterCooldown_delivered (handle_special_delivered hstep)
  rw [hinit] at hacc
  injection hacc with hacc
  subst hacc
  obtain ⟨-, -, -, hcur, -⟩ := nextPremiumTest_some hsel
  subst hdb'
  subst htid
  refine ⟨hpos, hcur, ?_, rfl, rfl⟩
  show lookupAccess (commit_update db.user_access (u, subject_map code, "special") t.id) _ = _
  unfold commit_update
  rw [lookupAccess_updateAccess_self, hinit]
  rfl

/-- Quota conservation along a sequence of successful special deliveries:
with initial quota Q and N delivered requests, the final quota is Q - N and
N never exceeds Q. -/
lemma runSpecial_quota (u : Int) (code : String) :
    ∀ (inputs : List (Int × Nat × Bool)) (db : DB) (Q c0 : Int), 0 ≤ Q →
    lookupAccess db.user_access (u, subject_map code, "special") = some ⟨Q, c0⟩ →
    allDelivered u code db inputs = true →
    (∃ c', lookupAccess (runSpecial u code db inputs).user_access
        (u, subject_map code, "special") = some ⟨Q - inputs.length, c'⟩) ∧
      (inputs.length : Int) ≤ Q := by
  intro inputs
  induction inputs with
  | nil =>
    intro db Q c0 hQ hinit _
    refine ⟨⟨c0, ?_⟩, by simpa using hQ⟩
    simpa using hinit
  | cons inp rest ih =>
    intro db Q c0 hQ hinit hall
    rw [allDelivered, Bool.and_eq_true] at hall
    obtain ⟨hd, ha⟩ := hall
    rcases hps : specialStep u code db inp with ⟨r, db2⟩
    rw [hps] at hd ha
    cases r with
    | delivered tid =>
      obtain ⟨hQpos, _, hlook, -, -⟩ := specialStep_delivered hinit hps
      rw [runSpecial, hps]
      obtain ⟨⟨c', hc'⟩, hlen⟩ := ih db2 (Q - 1) tid (by omega) hlook ha
      have harith : Q - 1 - (rest.length : Int) = Q - ((inp :: rest).length : Int) := by
        simp only [List.length_cons]
        push_cast
        ring
      refine ⟨⟨c', by rw [hc', harith]⟩, ?_⟩
      simp only [List.length_cons]
      push_cast
      omega
    | adminDelivered tid => simp [isDelivered] at hd
    | adminEmpty => simp [isDelivered] at hd
    | cooldownActive rem => simp [isDelivered] at hd
    | quotaExhausted => simp [isDelivered] at hd
    | catalogExhausted => simp [isDelivered] at hd
    | sendFailed => simp [isDelivered] at hd

/-- The ids delivered along a sequence of successful special deliveries all
lie strictly above the initial cursor and form a strictly increasing list. -/
lemma runSpecial_ids (u : Int) (code : String) :
    ∀ (inputs : List (Int × Nat × Bool)) (db : DB) (Q c0 : Int),
    lookupAccess db.user_access (u, subject_map code, "special") = some ⟨Q, c0⟩ →
    allDelivered u code db inputs = true →
    (∀ i ∈ deliveredIds u code db inputs, c0 < i) ∧
      List.Pairwise (fun a b => a < b) (deliveredIds u code db inputs) := by
  intro inputs
  induction inputs with
  | nil =>
    intro db Q c0 _ _
    simp [deliveredIds]
  | cons inp rest ih =>
    intro db Q c0 hinit hall
    rw [allDelivered, Bool.and_eq_true] at hall
    obtain ⟨hd, ha⟩ := hall
    rcases hps : specialStep u code db inp with ⟨r, db2⟩
    rw [hps] at hd ha
    cases r with
    | delivered tid =>
      obtain ⟨-, hlt, hlook, -, -⟩ := specialStep_delivered hinit hps
      obtain ⟨hall', hpw⟩ := ih db2 (Q - 1) tid hlook ha
      rw [deliveredIds, hps]
      simp only [List.singleton_append]
      constructor
      · intro i hi
        rcases List.mem_cons.mp hi with rfl | hmem
        · exact hlt
        · exact lt_trans hlt (hall' i hmem)
      · exact List.Pairwise.cons (fun i hi => hall' i hi) hpw
    | adminDelivered tid => simp [isDelivered] at hd
    | adminEmpty => simp [isDelivered] at hd
    | cooldownActive rem => simp [isDelivered] at hd
    | quotaExhausted => simp [isDelivered] at hd
    | catalogExhausted => simp [isDelivered] at hd
    | sendFailed => simp [isDelivered] at hd

/-! Helper lemmas about registration and granting. -/

lemma lookupCooldown_ensure_self (cds : List ((Int × String) × CooldownRec)) (uid : Int)
    (s : String) (now : Int) :
    (lookupCooldown (ensureCooldownRow cds uid s now) (uid, s)).isSome := by
  unfold ensureCooldownRow
  cases h : lookupCooldown cds (uid, s) with
  | some v => simp [h]
  | none => simp [lookupCooldown]

lemma lookupCooldown_ensure_isSome (cds : List ((Int × String) × CooldownRec)) (uid : Int)
    (s : String) (now : Int) (k : Int × String) (h : (lookupCooldown cds k).isSome) :
    (lookupCooldown (ensureCooldownRow cds uid s now) k).isSome := by
  unfold ensureCooldownRow
  cases hl : lookupCooldown cds (uid, s) with
  | some v => exact h
  | none =>
    rw [lookupCooldown]
    split
    · simp
    · exact h

lemma ensure_of_isSome (cds : List ((Int × String) × CooldownRec)) (uid : Int) (s : String)
    (now : Int) (h : (lookupCooldown cds (uid, s)).isSome) :
    ensureCooldownRow cds uid s now = cds := by
  unfold ensureCooldownRow
  cases hl : lookupCooldown cds (uid, s) with
  | some v => rfl
  | none => rw [hl] at h; simp at h

lemma userExists_self (l : List UserRow) (row : UserRow) :
    userExists (row :: l) row.user_id = true := by
  rw [userExists]
  simp

/-- Registering twice with the same user id is the same as registering
once, whatever the second registration's profile and time. -/
lemma send_welcome_idem (db : DB) (row row2 : UserRow) (now now2 : Int)
    (h2 : row2.user_id = row.user_id) :
    send_welcome (send_welcome db row now) row2 now2 = send_welcome db row now := by
  unfold send_welcome
  simp only [start_subjects, List.foldl_cons, List.foldl_nil]
  rw [DB.mk.injEq]
  refine ⟨?_, ?_, rfl, rfl, rfl⟩
  · rw [h2]
    by_cases hex : userExists db.users row.user_id
    · simp [hex]
    · simp [hex, userExists_self]
  · have h1 : (lookupCooldown
        (ensureCooldownRow (ensureCooldownRow db.user_cooldowns row.user_id "Математика" now)
          row.user_id "Информатика" now) (row.user_id, "Математика")).isSome := by
      exact lookupCooldown_ensure_isSome _ _ _ _ _ (lookupCooldown_ensure_self _ _ _ _)
    have hI : (lookupCooldown
        (ensureCooldownRow (ensureCooldownRow db.user_cooldowns row.user_id "Математика" now)
          row.user_id "Информатика" now) (row.user_id, "Информатика")).isSome :=
      lookupCooldown_ensure_self _ _ _ _
    rw [h2, ensure_of_isSome _ _ _ _ h1, ensure_of_isSome _ _ _ _ hI]

/-- A first-time registration creates, for each configured subject, a
cooldown row whose two deadlines both lie one day in the past. -/
lemma send_welcome_creates (db : DB) (row : UserRow) (now : Int) (subj : String)
    (hsub : subj ∈ start_subjects)
    (habs : lookupCooldown db.user_cooldowns (row.user_id, subj) = none) :
    lookupCooldown (send_welcome db row now).user_cooldowns (row.user_id, subj)
      = some ⟨some (now - daySec), some (now - daySec)⟩ := by
  have hne : ("Информатика" : String) ≠ "Математика" := by decide
  unfold send_welcome
  dsimp only
  simp only [start_subjects] at hsub
  simp only [start_subjects, List.foldl_cons, List.foldl_nil]
  rcases List.mem_cons.mp hsub with rfl | hsub2
  · have hA : ensureCooldownRow db.user_cooldowns row.user_id "Математика" now
        = ((row.user_id, "Математика"), ⟨some (now - daySec), some (now - daySec)⟩)
            :: db.user_cooldowns := by
      unfold ensureCooldownRow
      rw [habs]
    rw [hA]
    unfold ensureCooldownRow
    split
    · simp [lookupCooldown]
    · simp [lookupCooldown, hne]
  · have hsubI : subj = "Информатика" := by
      rcases List.mem_cons.mp hsub2 with h | h
      · exact h
      · exact absurd h (by simp)
    subst hsubI
    have hAI : lookupCooldown
        (ensureCooldownRow db.user_cooldowns row.user_id "Математика" now)
        (row.user_id, "Информатика") = none := by
      unfold ensureCooldownRow
      split
      · exact habs
      · rw [lookupCooldown, if_neg (by simp [hne]), habs]
    generalize hA : ensureCooldownRow db.user_cooldowns row.user_id "Математика" now = A
    rw [hA] at hAI
    unfold ensureCooldownRow
    rw [hAI]
    simp [lookupCooldown]

/-- Registration changes no table other than users and user_cooldowns. -/
lemma send_welcome_frame (db : DB) (row : UserRow) (now : Int) :
    (send_welcome db row now).user_access = db.user_access ∧
      (send_welcome db row now).tests = db.tests ∧
      (send_welcome db row now).premium_tests = db.premium_tests := by
  unfold send_welcome
  exact ⟨rfl, rfl, rfl⟩

lemma lookupAccess_upsertAdd_present (l : List ((Int × String × String) × AccessRec))
    (key : Int × String × String) (amount : Int) (rec : AccessRec)
    (h : lookupAccess l key = some rec) :
    lookupAccess (upsertAccessAdd l key amount) key
      = some ⟨rec.remaining_count + amount, rec.last_special_test_id⟩ := by
  unfold upsertAccessAdd
  rw [h, lookupAccess_updateAccess_self, h]
  rfl

lemma lookupAccess_upsertAdd_absent (l : List ((Int × String × String) × AccessRec))
    (key : Int × String × String) (amount : Int) (h : lookupAccess l key = none) :
    lookupAccess (upsertAccessAdd l key amount) key = some ⟨amount, 0⟩ := by
  unfold upsertAccessAdd
  rw [h, lookupAccess]
  simp

/-- Past the quota gate with positive quota, an exhausted catalog denies
with CatalogExhausted and leaves the database unchanged. -/
lemma specialAfterCooldown_catalogExhausted {db : DB} {u : Int} {s a : String} {r c : Int}
    (hacc : lookupAccess db.user_access (u, s, a) = some ⟨r, c⟩)
    (hmax : ∀ t ∈ db.premium_tests, t.subject = s → t.access_type = a → t.id ≤ c)
    (hr : 0 < r) (sendOk : Bool) :
    specialAfterCooldown db u s a sendOk = (.catalogExhausted, db) := by
  unfold specialAfterCooldown
  simp only [hacc]
  rw [if_neg (not_le.mpr hr)]
  simp only [nextPremiumTest_eq_none_of_max hmax]

/-- With the quota at zero or below, the quota gate denies with
QuotaExhausted and leaves the database unchanged. -/
lemma specialAfterCooldown_quotaLe {db : DB} {u : Int} {s a : String} {r c : Int}
    (hacc : lookupAccess db.user_access (u, s, a) = some ⟨r, c⟩) (hr : r ≤ 0)
    (sendOk : Bool) :
    specialAfterCooldown db u s a sendOk = (.quotaExhausted, db) := by
  unfold specialAfterCooldown
  simp only [hacc]
  rw [if_pos hr]

/-- For a non-privileged request arriving at or after the stored special
cooldown deadline (or with no deadline stored), the special handler reduces
to its post-cooldown body. -/
lemma handle_special_pastCooldown {db : DB} {u : Int} {code a : String} {now : Int}
    {pick : Nat} {sendOk : Bool}
    (hadm : ADMIN_IDS.contains u = false)
    (hcd : ∀ t0, (lookupCooldown db.user_cooldowns (u, subject_map code)).bind
        CooldownRec.next_special_time = some t0 → t0 ≤ now) :
    handle_special_variant db u code a now pick sendOk
      = specialAfterCooldown db u (subject_map code) a sendOk := by
  unfold handle_special_variant
  rw [if_neg (by intro hc; rw [hadm] at hc; simp at hc)]
  cases hb : (lookupCooldown db.user_cooldowns (u, subject_map code)).bind
      CooldownRec.next_special_time with
  | none => rfl
  | some t0 =>
    dsimp only
    rw [if_neg (not_lt.mpr (hcd t0 hb))]

/-! The claims. -/

/-- C1: for every sequence of N successful non-privileged special-tier
deliveries run one after another against an entitlement record with initial
remaining_count Q (nonnegative, as the quota invariant demands), each
delivery decrements remaining_count by exactly one — the single UPDATE of
lines 608-613 — so the final remaining_count equals Q - N, N ≤ Q holds, and
the count never becomes negative (the bound applies to every prefix of the
sequence as well, the theorem being instantiable at each prefix). The free
tier has no entitlement record to decrement; see C9 for the frame fact that
free requests leave user_access untouched. -/
theorem C1_quota_conservation (u : Int) (code : String) (inputs : List (Int × Nat × Bool))
    (db : DB) (Q c0 : Int) (hQ : 0 ≤ Q)
    (hinit : lookupAccess db.user_access (u, subject_map code, "special") = some ⟨Q, c0⟩)
    (hall : allDelivered u code db inputs = true) :
    (∃ c', lookupAccess (runSpecial u code db inputs).user_access
        (u, subject_map code, "special") = some ⟨Q - inputs.length, c'⟩) ∧
      (inputs.length : Int) ≤ Q ∧ 0 ≤ Q - (inputs.length : Int) := by
  obtain ⟨he, hl⟩ := runSpecial_quota u code inputs db Q c0 hQ hinit hall
  exact ⟨he, hl, by omega⟩

/-- C1 witness: two successful special deliveries against quota 3 leave
remaining_count 3 - 2 = 1. -/
theorem C1_quota_conservation_witness :
    (∃ c', lookupAccess (runSpecial 5 "math" dbW [(0, 0, true), (0, 0, true)]).user_access
        (5, subject_map "math", "special")
        = some ⟨3 - (([(0, 0, true), (0, 0, true)] : List (Int × Nat × Bool)).length : Int), c'⟩) ∧
      ((([(0, 0, true), (0, 0, true)] : List (Int × Nat × Bool)).length : Int) ≤ 3) ∧
      0 ≤ (3 : Int) - (([(0, 0, true), (0, 0, true)] : List (Int × Nat × Bool)).length : Int) :=
  C1_quota_conservation 5 "math" [(0, 0, true), (0, 0, true)] dbW 3 0 (by decide) (by decide)
    (by decide)

/-- C2 counterexample: the claim includes the free tier, but the free
handler selects ORDER BY RANDOM() with no cursor. With a single free probe
of id 1 in the catalog, user 5 receives item 1 at time 0 and again a day
later: the sequence of delivered free-tier ids (1, 1) is not strictly
increasing and contains a duplicate. -/
theorem C2_counterexample :
    (handle_free_variant dbW 5 "math" 0 0 true).1 = .delivered 1 ∧
    (handle_free_variant (handle_free_variant dbW 5 "math" 0 0 true).2
        5 "math" 90000 0 true).1 = .delivered 1 := by
  exact ⟨rfl, rfl⟩

/-- C2 amended: for the special tier the property holds — along any
sequence of successful non-privileged deliveries the delivered item ids are
pairwise strictly increasing (hence duplicate-free) and all lie strictly
above the initial cursor. The free tier draws uniformly at random with no
cursor and can repeat an item, as the counterexample shows. -/
theorem C2_special_ids_increasing (u : Int) (code : String)
    (inputs : List (Int × Nat × Bool)) (db : DB) (Q c0 : Int)
    (hinit : lookupAccess db.user_access (u, subject_map code, "special") = some ⟨Q, c0⟩)
    (hall : allDelivered u code db inputs = true) :
    (∀ i ∈ deliveredIds u code db inputs, c0 < i) ∧
      List.Pairwise (fun a b => a < b) (deliveredIds u code db inputs) :=
  runSpecial_ids u code inputs db Q c0 hinit hall

/-- C2 witness: the two ids delivered by two successful special requests
against dbW lie above cursor 0 and increase strictly. -/
theorem C2_special_ids_increasing_witness :
    (∀ i ∈ deliveredIds 5 "math" dbW [(0, 0, true), (0, 0, true)], (0 : Int) < i) ∧
      List.Pairwise (fun a b : Int => a < b)
        (deliveredIds 5 "math" dbW [(0, 0, true), (0, 0, true)]) :=
  C2_special_ids_increasing 5 "math" [(0, 0, true), (0, 0, true)] dbW 3 0 (by decide)
    (by decide)

/-- C3: the commit step performs no re-validation. Applied to the state a
racing request would face at write time — the row already at
remaining_count 0 — the UPDATE of lines 608-613 matches on the key alone,
succeeds, and drives the row to remaining_count -1 with the cursor
advanced, instead of aborting with PreconditionFailed; nothing re-checks
remaining_count > 0 or item_id > cursor, and no transaction surrounds the
earlier reads, so a check-then-update race double-spends the quota. -/
theorem C3_commit_no_revalidation :
    lookupAccess (commit_update [((5, "Математика", "special"), ⟨0, 0⟩)]
        (5, "Математика", "special") 1) (5, "Математика", "special") = some ⟨-1, 1⟩ := by
  rfl

/-- C4: grantAccess stores the entitlement under the subject code while the
delivery path looks it up under the full subject name. After an admin
grants user 42 the subject Математика, the granted row exists with quota 10
under key (42, math, special), yet user 42's next special-tier request for
that subject — outside any cooldown, with a non-empty catalog — is still
denied with QuotaExhausted, because the handler queries key
(42, Математика, special), which is absent. -/
theorem C4_grant_then_denied :
    (admin_grant_access dbC4 1044841557 42 "Математика").1 = .granted ∧
    lookupAccess (admin_grant_access dbC4 1044841557 42 "Математика").2.user_access
      (42, "math", "special") = some ⟨10, 0⟩ ∧
    (handle_special_variant (admin_grant_access dbC4 1044841557 42 "Математика").2
        42 "math" "special" 0 0 true).1 = .quotaExhausted := by
  exact ⟨rfl, rfl, rfl⟩

/-- C5: the cooldown deadline is never set after a successful delivery. At
time 0 user 5 receives special probe 1, yet the stored cooldown row still
holds the old deadlines (-86400, -86400) instead of next_special_time =
now + 24h = 86400: the cooldown upsert of lines 617-622 references a
target-table column in its VALUES list, PostgreSQL rejects the statement,
and the error is swallowed. The free handler's upsert (lines 471-476) fails
the same way. -/
theorem C5_cooldown_not_updated :
    (handle_special_variant dbC5 5 "math" "special" 0 0 true).1 = .delivered 1 ∧
    lookupCooldown (handle_special_variant dbC5 5 "math" "special" 0 0 true).2.user_cooldowns
      (5, "Математика") = some ⟨some (-86400), some (-86400)⟩ ∧
    (some (⟨some (-86400), some (-86400)⟩ : CooldownRec) ≠
      some (⟨some (-86400), some (0 + daySec)⟩ : CooldownRec)) := by
  exact ⟨rfl, rfl, by decide⟩

/-- C6: item selection returns the catalog row with the smallest id
strictly greater than the cursor, or none when no such row exists; and
whenever the cursor dominates every item id of the partition, a
non-privileged request outside the cooldown window is denied with no state
change — with reason CatalogExhausted whenever any quota remains, while
with quota at zero or below the earlier quota gate denies first (with
QuotaExhausted), so the request never delivers regardless of the remaining
quota. -/
theorem C6_selection_and_catalog_exhaustion :
    (∀ (prem : List PremTest) (s a : String) (cur : Int) (t : PremTest),
        nextPremiumTest prem s a cur = some t →
          t ∈ prem ∧ t.subject = s ∧ t.access_type = a ∧ cur < t.id ∧
            ∀ v ∈ prem, v.subject = s → v.access_type = a → cur < v.id → t.id ≤ v.id) ∧
    (∀ (prem : List PremTest) (s a : String) (cur : Int),
        nextPremiumTest prem s a cur = none →
          ∀ v ∈ prem, v.subject = s → v.access_type = a → v.id ≤ cur) ∧
    (∀ (db : DB) (u : Int) (code : String) (now : Int) (pick : Nat) (sendOk : Bool)
        (r c : Int),
        ADMIN_IDS.contains u = false →
        (∀ t0, (lookupCooldown db.user_cooldowns (u, subject_map code)).bind
            CooldownRec.next_special_time = some t0 → t0 ≤ now) →
        lookupAccess db.user_access (u, subject_map code, "special") = some ⟨r, c⟩ →
        (∀ t ∈ db.premium_tests, t.subject = subject_map code → t.access_type = "special" →
            t.id ≤ c) →
        (handle_special_variant db u code "special" now pick sendOk).2 = db ∧
          (0 < r → (handle_special_variant db u code "special" now pick sendOk).1
              = .catalogExhausted) ∧
          (r ≤ 0 → (handle_special_variant db u code "special" now pick sendOk).1
              = .quotaExhausted)) := by
  refine ⟨fun prem s a cur t h => nextPremiumTest_some h,
    fun prem s a cur h => nextPremiumTest_none h,
    fun db u code now pick sendOk r c hadm hcd hacc hmax => ?_⟩
  refine ⟨?_, ?_, ?_⟩
  · rw [handle_special_pastCooldown hadm hcd]
    by_cases hr : 0 < r
    · rw [specialAfterCooldown_catalogExhausted hacc hmax hr]
    · rw [specialAfterCooldown_quotaLe hacc (by omega)]
  · intro hr
    rw [handle_special_pastCooldown hadm hcd,
      specialAfterCooldown_catalogExhausted hacc hmax hr]
  · intro hr
    rw [handle_special_pastCooldown hadm hcd, specialAfterCooldown_quotaLe hacc hr]

/-- C6 witness: in dbC6 the cursor 3 equals the highest special item id and
quota 2 remains; the request is denied with CatalogExhausted and the
database is unchanged. -/
theorem C6_selection_and_catalog_exhaustion_witness :
    (handle_special_variant dbC6 7 "math" "special" 0 0 true).2 = dbC6 ∧
      (handle_special_variant dbC6 7 "math" "special" 0 0 true).1
        = SpecialResult.catalogExhausted := by
  have h := C6_selection_and_catalog_exhaustion.2.2 dbC6 7 "math" 0 0 true 2 3
    (by decide)
    (fun t0 ht => by
      rw [show (lookupCooldown dbC6.user_cooldowns (7, subject_map "math")).bind
          CooldownRec.next_special_time = some (-1) from rfl] at ht
      injection ht with ht
      omega)
    (by decide)
    (by decide)
  exact ⟨h.1, h.2.1 (by decide)⟩

/-- C7: granting adds exactly 10 to remaining_count under the key the grant
uses — (target, subject code, special) — creating the row with cursor 0
when absent, and leaving the cursor (last_special_test_id) unchanged when
the row exists; a subsequent read of the same key shows the increase. -/
theorem C7_grant_adds_ten (db : DB) (sender target : Int) (subject code : String)
    (hadm : ADMIN_IDS.contains sender = true)
    (hcode : subject_map_reverse subject = some code) :
    (admin_grant_access db sender target subject).1 = .granted ∧
    (∀ rec, lookupAccess db.user_access (target, code, "special") = some rec →
        lookupAccess (admin_grant_access db sender target subject).2.user_access
          (target, code, "special")
          = some ⟨rec.remaining_count + 10, rec.last_special_test_id⟩) ∧
    (lookupAccess db.user_access (target, code, "special") = none →
        lookupAccess (admin_grant_access db sender target subject).2.user_access
          (target, code, "special") = some ⟨10, 0⟩) := by
  unfold admin_grant_access
  rw [if_pos hadm]
  simp only [hcode]
  refine ⟨by trivial, ?_, ?_⟩
  · intro rec h
    exact lookupAccess_upsertAdd_present _ _ _ _ h
  · intro h
    exact lookupAccess_upsertAdd_absent _ _ _ h

/-- C7 witness: granting Математика to user 5 with no prior row under the
grant's key creates (5, math, special) with remaining_count 10, cursor 0. -/
theorem C7_grant_adds_ten_witness :
    lookupAccess (admin_grant_access dbW 1044841557 5 "Математика").2.user_access
      (5, "math", "special") = some ⟨10, 0⟩ :=
  (C7_grant_adds_ten dbW 1044841557 5 "Математика" "math" (by decide) (by decide)).2.2
    (by decide)

/-- C8 counterexample: a first-time registration of user 9 on the empty
database creates no entitlement row at all — user_access stays empty — so
no free-tier record with a positive default quota exists, contrary to the
claim's second half. -/
theorem C8_counterexample :
    (send_welcome dbEmpty ⟨9, none, none, none⟩ 0).user_access = [] := rfl

/-- C8 amended: registration is idempotent — a second /start with the same
user id, at any later time and with any profile, leaves every table exactly
as the first left it — and a first-time registration creates, for every
configured subject, a cooldown row with both deadlines one day in the past
(immediately eligible); it creates no entitlement (user_access) row and
touches no catalog table, the free tier carrying no quota. -/
theorem C8_registration (db : DB) (row row2 : UserRow) (now now2 : Int)
    (h2 : row2.user_id = row.user_id) :
    send_welcome (send_welcome db row now) row2 now2 = send_welcome db row now ∧
    (send_welcome db row now).user_access = db.user_access ∧
    (send_welcome db row now).tests = db.tests ∧
    (send_welcome db row now).premium_tests = db.premium_tests ∧
    (∀ subj ∈ start_subjects,
        lookupCooldown db.user_cooldowns (row.user_id, subj) = none →
          lookupCooldown (send_welcome db row now).user_cooldowns (row.user_id, subj)
            = some ⟨some (now - daySec), some (now - daySec)⟩) :=
  ⟨send_welcome_idem db row row2 now now2 h2, (send_welcome_frame db row now).1,
    (send_welcome_frame db row now).2.1, (send_welcome_frame db row now).2.2,
    fun subj hs habs => send_welcome_creates db row now subj hs habs⟩

/-- C8 witness: registering user 9 twice on the empty database, the second
time with a different profile and time, equals registering once. -/
theorem C8_registration_witness :
    send_welcome (send_welcome dbEmpty ⟨9, none, none, none⟩ 0) ⟨9, some "x", none, none⟩ 99
      = send_welcome dbEmpty ⟨9, none, none, none⟩ 0 :=
  (C8_registration dbEmpty ⟨9, none, none, none⟩ ⟨9, some "x", none, none⟩ 0 99 rfl).1

/-- C9: a non-privileged free-tier request is a no-op on all persistent
state — in particular every user_access row (the quota table) is unchanged
— and its outcome does not depend on the user_access table at all: the free
path neither reads nor writes the quota, being gated by the cooldown check
alone. (The one write the source attempts on this path, the next_free_time
upsert, is the statement PostgreSQL rejects, so even that column is in fact
left unchanged.) -/
theorem C9_free_frame (db : DB) (acc : List ((Int × String × String) × AccessRec))
    (u : Int) (code : String) (now : Int) (pick : Nat) (sendOk : Bool) :
    (handle_free_variant db u code now pick sendOk).2 = db ∧
      (handle_free_variant { db with user_access := acc } u code now pick sendOk).1
        = (handle_free_variant db u code now pick sendOk).1 :=
  ⟨handle_free_snd db u code now pick sendOk,
    handle_free_fst_access_independent db acc u code now pick sendOk⟩

/-- C10: when sending the selected file raises, the request leaves all
persistent state unchanged in both handlers: the quota decrement, cursor
advance and cooldown update are sequenced after the send, and the exception
paths perform no database writes. -/
theorem C10_send_failure_no_mutation (db : DB) (u : Int) (code a : String) (now : Int)
    (pick : Nat) :
    (handle_special_variant db u code a now pick false).2 = db ∧
      (handle_free_variant db u code now pick false).2 = db :=
  ⟨handle_special_snd_sendFalse db u code a now pick,
    handle_free_snd db u code now pick false⟩

end TGBot
